import Mathlib

/-!
Verification of the TCP scenario-evaluation core.

The definitions below are a shallow embedding of the Python sources
`scenario_config/scenario_runner.py`, `scenario_config/tcp_evaluator.py`
and `scenario_config/scenario_schema.py`.  Floating-point numbers are
modelled as rationals (for the scenario runner, whose arithmetic is
plain field arithmetic and comparisons) and as real numbers (for the
evaluator, whose metric updates use Euclidean norms).  Random draws
from `random.random()` / `random.uniform(..)` are modelled as explicit
input parameters, one per call site, so every function is a pure
function of its draws.
-/

namespace Runner

/-- Maneuver type, from `scenario_schema.ManeuverType`. -/
inductive ManeuverType
  | straight
  | leftTurn
  | rightTurn
deriving DecidableEq

/-- Location class, from `scenario_schema.LocationType`. -/
inductive LocationType
  | intersectionSignal
  | intersectionNoSignal
  | roadSegment
deriving DecidableEq

/-- Python's floating `%` for a positive modulus: `a % b = a - b * floor (a / b)`
(the result has the sign of `b`).  Used by the turn-angle normalization in
`ScenarioRunner._find_maneuver_spawn_at_intersection`. -/
def fmod (a b : ℚ) : ℚ := a - b * ⌊a / b⌋

/-- The turn-angle normalization from `scenario_runner.py` line 246:
`angle_diff = (exit_yaw - entry_yaw + 180) % 360 - 180`, as a function of the
raw heading difference `d = exit_yaw - entry_yaw`. -/
def normAngle (d : ℚ) : ℚ := fmod (d + 180) 360 - 180

/-- The maneuver-match test from `scenario_runner.py` lines 249-255:
`straight` iff `abs(angle_diff) < 30`, `left` iff `-120 < angle_diff < -60`,
`right` iff `60 < angle_diff < 120`. -/
def matchesManeuver (m : ManeuverType) (θ : ℚ) : Bool :=
  match m with
  | .straight => decide (|θ| < 30)
  | .leftTurn => decide (-120 < θ) && decide (θ < -60)
  | .rightTurn => decide (60 < θ) && decide (θ < 120)

end Runner

namespace Runner

/-- C1: turn classification is a pure function of the normalized angle with
three pairwise disjoint bands, and the dead zones `[30, 60]`, `[-60, -30]`
and the wrap region `120 ≤ |θ|` match no maneuver type. -/
theorem turn_classification_bands (θ : ℚ) :
    (matchesManeuver .straight θ = true ↔ |θ| < 30) ∧
    (matchesManeuver .leftTurn θ = true ↔ (-120 < θ ∧ θ < -60)) ∧
    (matchesManeuver .rightTurn θ = true ↔ (60 < θ ∧ θ < 120)) ∧
    ¬(matchesManeuver .straight θ = true ∧ matchesManeuver .leftTurn θ = true) ∧
    ¬(matchesManeuver .straight θ = true ∧ matchesManeuver .rightTurn θ = true) ∧
    ¬(matchesManeuver .leftTurn θ = true ∧ matchesManeuver .rightTurn θ = true) ∧
    ((30 ≤ θ ∧ θ ≤ 60) ∨ (-60 ≤ θ ∧ θ ≤ -30) ∨ 120 ≤ |θ| →
      matchesManeuver .straight θ = false ∧
      matchesManeuver .leftTurn θ = false ∧
      matchesManeuver .rightTurn θ = false) := by
  have hs : matchesManeuver .straight θ = true ↔ |θ| < 30 := by
    simp [matchesManeuver]
  have hl : matchesManeuver .leftTurn θ = true ↔ (-120 < θ ∧ θ < -60) := by
    simp [matchesManeuver]
  have hr : matchesManeuver .rightTurn θ = true ↔ (60 < θ ∧ θ < 120) := by
    simp [matchesManeuver]
  refine ⟨hs, hl, hr, ?_, ?_, ?_, ?_⟩
  · rintro ⟨h1, h2⟩
    rw [hs] at h1; rw [hl] at h2
    have := abs_lt.mp h1
    linarith [h2.2]
  · rintro ⟨h1, h2⟩
    rw [hs] at h1; rw [hr] at h2
    have := abs_lt.mp h1
    linarith [h2.1]
  · rintro ⟨h1, h2⟩
    rw [hl] at h1; rw [hr] at h2
    linarith [h1.2, h2.1]
  · intro h
    refine ⟨?_, ?_, ?_⟩
    · rw [Bool.eq_false_iff, Ne, hs]
      rcases h with h | h | h
      · intro hc; have := (abs_lt.mp hc).2; linarith [h.1]
      · intro hc; have := (abs_lt.mp hc).1; linarith [h.2]
      · intro hc; linarith [lt_of_le_of_lt h hc]
    · rw [Bool.eq_false_iff, Ne, hl]
      rcases h with h | h | h
      · rintro ⟨_, hc⟩; linarith [h.1]
      · rintro ⟨_, hc⟩; linarith [h.2]
      · rintro ⟨hc1, hc2⟩
        rcases le_abs.mp h with h' | h'
        · linarith
        · linarith
    · rw [Bool.eq_false_iff, Ne, hr]
      rcases h with h | h | h
      · rintro ⟨hc, _⟩; linarith [h.2]
      · rintro ⟨hc, _⟩; linarith [h.1]
      · rintro ⟨hc1, hc2⟩
        rcases le_abs.mp h with h' | h'
        · linarith
        · linarith

/-- Witness for C1: the dead-zone angle `45` matches no maneuver type. -/
theorem turn_classification_bands_witness :
    matchesManeuver .straight 45 = false ∧
    matchesManeuver .leftTurn 45 = false ∧
    matchesManeuver .rightTurn 45 = false :=
  (turn_classification_bands 45).2.2.2.2.2.2 (Or.inl ⟨by norm_num, by norm_num⟩)

/-- Counterexample for C8: at entry heading 0 and exit heading 180 the
normalized angle is exactly `-180`, so it is not strictly greater than
`-180` as the claim states. -/
theorem normAngle_not_gt_neg180 : ¬ (-180 < normAngle (180 - 0)) := by
  intro hc
  have h : normAngle (180 - 0) = -180 := by
    norm_num [normAngle, fmod]
  rw [h] at hc
  exact absurd hc (by norm_num)

/-- C8 (amended): the normalization maps every pair of headings into the
half-open interval `[-180, 180)`: the value `(exit - entry + 180) % 360 - 180`
is at least `-180` and strictly less than `180`. -/
theorem normAngle_range (entryYaw exitYaw : ℚ) :
    -180 ≤ normAngle (exitYaw - entryYaw) ∧ normAngle (exitYaw - entryYaw) < 180 := by
  set d : ℚ := exitYaw - entryYaw with hd
  have hcancel : (360 : ℚ) * ((d + 180) / 360) = d + 180 := by
    field_simp
  have key : normAngle d = 360 * Int.fract ((d + 180) / 360) - 180 := by
    unfold normAngle fmod
    rw [Int.fract, mul_sub, hcancel]
  have h0 : (0 : ℚ) ≤ Int.fract ((d + 180) / 360) := Int.fract_nonneg _
  have h1 : Int.fract ((d + 180) / 360) < 1 := Int.fract_lt_one _
  constructor
  · rw [key]; linarith
  · rw [key]; linarith

/-- 3-D point, from `carla.Location` as used by the runner (x, y, z). -/
structure Location where
  x : ℚ
  y : ℚ
  z : ℚ
deriving DecidableEq

/-- Vehicle sub-behavior probabilities, from `scenario_schema.VehicleBehaviors`
(the `sudden_brake` field exists in the schema but is never read by the
runner). -/
structure VehicleBehaviors where
  runRedLight : ℚ
  ignoreStopSign : ℚ
  suddenLaneChange : ℚ
  ignoreRightOfWay : ℚ
  suddenBrake : ℚ
  tailgate : ℚ
deriving DecidableEq

/-- The slice of `scenario_schema.VehicleTrafficConfig` read by
`ScenarioRunner._apply_vehicle_behavior`. -/
structure VehicleTrafficCfg where
  ruleBreakProbability : ℚ
  behaviors : VehicleBehaviors
deriving DecidableEq

/-- The uniform draws consumed by `_apply_vehicle_behavior`, one per
`random.random()` / `random.uniform(-20, 30)` call site, in call order. -/
structure VehicleDraws where
  gate : ℚ
  redLight : ℚ
  stopSign : ℚ
  laneChange : ℚ
  rightOfWay : ℚ
  tailgate : ℚ
  speedDiff : ℚ
deriving DecidableEq

/-- Traffic-manager parameter assignments issued by
`_apply_vehicle_behavior`, one constructor per setter call. -/
inductive TMAction
  | ignoreLights (pct : ℚ)
  | ignoreSigns (pct : ℚ)
  | randomLeftLaneChange (pct : ℚ)
  | randomRightLaneChange (pct : ℚ)
  | ignoreVehicles (pct : ℚ)
  | distanceToLeading (dist : ℚ)
  | speedDifference (pct : ℚ)
deriving DecidableEq

/-- `ScenarioRunner._apply_vehicle_behavior` (lines 399-429): an early
`return` when the gate draw exceeds `rule_break_probability`, then one
independent test per sub-behavior, then the speed-difference assignment
drawn from `uniform(-20, 30)`.  Returns the sequence of traffic-manager
setter calls. -/
def applyVehicleBehavior (cfg : VehicleTrafficCfg) (d : VehicleDraws) : List TMAction :=
  if d.gate > cfg.ruleBreakProbability then []
  else
    (if d.redLight < cfg.behaviors.runRedLight then [TMAction.ignoreLights 100] else []) ++
    (if d.stopSign < cfg.behaviors.ignoreStopSign then [TMAction.ignoreSigns 100] else []) ++
    (if d.laneChange < cfg.behaviors.suddenLaneChange then
        [TMAction.randomLeftLaneChange 50, TMAction.randomRightLaneChange 50] else []) ++
    (if d.rightOfWay < cfg.behaviors.ignoreRightOfWay then [TMAction.ignoreVehicles 50] else []) ++
    (if d.tailgate < cfg.behaviors.tailgate then [TMAction.distanceToLeading 1] else []) ++
    [TMAction.speedDifference d.speedDiff]

/-- Pedestrian sub-behavior probabilities, from
`scenario_schema.PedestrianBehaviors` (`stop_in_road` is never read by the
runner). -/
structure PedestrianBehaviors where
  jaywalk : ℚ
  ignoreSignal : ℚ
  suddenCrossing : ℚ
  stopInRoad : ℚ
deriving DecidableEq

/-- The slice of `scenario_schema.PedestrianTrafficConfig` read by
`ScenarioRunner._apply_pedestrian_behavior`. -/
structure PedestrianTrafficCfg where
  ruleBreakProbability : ℚ
  behaviors : PedestrianBehaviors
deriving DecidableEq

/-- The uniform draws consumed by `_apply_pedestrian_behavior`, one per
call site (`jaywalkSpeed` models `uniform(1.5, 3.0)`, `offsetX`/`offsetY`
model `uniform(-10, 10)`). -/
structure PedestrianDraws where
  gate : ℚ
  jaywalkTest : ℚ
  jaywalkSpeed : ℚ
  signalTest : ℚ
  crossingTest : ℚ
  offsetX : ℚ
  offsetY : ℚ
deriving DecidableEq

/-- Walker-controller calls issued by `_apply_pedestrian_behavior`. -/
inductive WalkerAction
  | setMaxSpeed (v : ℚ)
  | goToLocation (x y z : ℚ)
deriving DecidableEq

/-- `ScenarioRunner._apply_pedestrian_behavior` (lines 491-526): early
`return` on the gate draw; the jaywalk branch calls `set_max_speed`; the
ignore-signal branch tests its draw and then does nothing (`pass` in the
source); the sudden-crossing branch sends the walker near the ego only
when an ego vehicle exists. -/
def applyPedestrianBehavior (cfg : PedestrianTrafficCfg) (egoLoc : Option Location)
    (d : PedestrianDraws) : List WalkerAction :=
  if d.gate > cfg.ruleBreakProbability then []
  else
    (if d.jaywalkTest < cfg.behaviors.jaywalk then [WalkerAction.setMaxSpeed d.jaywalkSpeed]
     else []) ++
    (if d.signalTest < cfg.behaviors.ignoreSignal then [] else []) ++
    (if d.crossingTest < cfg.behaviors.suddenCrossing then
       match egoLoc with
       | some loc => [WalkerAction.goToLocation (loc.x + d.offsetX) (loc.y + d.offsetY) loc.z]
       | none => []
     else [])

/-- Counterexample for C4: with `rule_break_probability = 0` and a gate draw
of `1/2`, the early return fires and no speed-difference parameter (nor any
other parameter) is applied, so speed variance is not unconditional. -/
theorem speed_variance_not_unconditional :
    ¬ ∃ p, TMAction.speedDifference p ∈
      applyVehicleBehavior ⟨0, ⟨0, 0, 0, 0, 0, 0⟩⟩ ⟨1/2, 0, 0, 0, 0, 0, 5⟩ := by
  have h : applyVehicleBehavior ⟨0, ⟨0, 0, 0, 0, 0, 0⟩⟩ ⟨1/2, 0, 0, 0, 0, 0, 5⟩ = [] := by
    unfold applyVehicleBehavior
    rw [if_pos (by norm_num)]
  rintro ⟨p, hp⟩
  rw [h] at hp
  exact absurd hp (List.not_mem_nil _)

/-- C4 (amended): speed variance is applied to every vehicle that passes the
rule-break gate (gate draw at most `rule_break_probability`), regardless of
the outcomes of the sub-behavior draws; vehicles that fail the gate receive
no parameter assignments at all. -/
theorem speed_variance_on_gate_pass (cfg : VehicleTrafficCfg) (d : VehicleDraws)
    (h : d.gate ≤ cfg.ruleBreakProbability) :
    TMAction.speedDifference d.speedDiff ∈ applyVehicleBehavior cfg d ∧
    ∀ d' : VehicleDraws, d'.gate > cfg.ruleBreakProbability →
      applyVehicleBehavior cfg d' = [] := by
  constructor
  · unfold applyVehicleBehavior
    rw [if_neg (by exact not_lt.mpr h)]
    simp
  · intro d' h'
    unfold applyVehicleBehavior
    rw [if_pos h']

/-- Witness for C4 (amended): a vehicle whose gate draw `1/4` passes the
rule-break probability `1/2` receives the speed-difference assignment. -/
theorem speed_variance_on_gate_pass_witness :
    TMAction.speedDifference 7 ∈
      applyVehicleBehavior ⟨1/2, ⟨0, 0, 0, 0, 0, 0⟩⟩ ⟨1/4, 0, 0, 0, 0, 0, 7⟩ :=
  (speed_variance_on_gate_pass ⟨1/2, ⟨0, 0, 0, 0, 0, 0⟩⟩ ⟨1/4, 0, 0, 0, 0, 0, 7⟩
    (by norm_num)).1

/-- Counterexample for C6: with `rule_break_probability = 0` and every draw
equal to `0`, the strict gate test `0 > 0` fails, so the vehicle is treated
as a rule breaker: with `run_red_light = 1` it receives the ignore-lights
parameter (and the speed difference), not the empty assignment. -/
theorem zero_probability_not_empty :
    applyVehicleBehavior ⟨0, ⟨1, 0, 0, 0, 0, 0⟩⟩ ⟨0, 0, 0, 0, 0, 0, 0⟩ ≠ [] := by
  have h : applyVehicleBehavior ⟨0, ⟨1, 0, 0, 0, 0, 0⟩⟩ ⟨0, 0, 0, 0, 0, 0, 0⟩ =
      [TMAction.ignoreLights 100, TMAction.speedDifference 0] := by
    unfold applyVehicleBehavior
    rw [if_neg (by norm_num), if_pos (by norm_num), if_neg (by norm_num),
        if_neg (by norm_num), if_neg (by norm_num), if_neg (by norm_num)]
    rfl
  rw [h]
  simp

/-- C6 (amended): boundary behavior of the injector.  With
`rule_break_probability = 0`, no parameter is applied for every strictly
positive gate draw (a draw of exactly `0` defeats the strict test).  With
`rule_break_probability = 1` and every sub-behavior probability `1`, every
vehicle whose draws lie in `[0, 1)` receives every vehicle sub-behavior
parameter set plus the speed difference, and every pedestrian receives the
jaywalk max-speed parameter and, when an ego vehicle exists, the
sudden-crossing destination (the pedestrian ignore-signal behavior maps to
no controller parameter in the source). -/
theorem injector_boundary_probabilities :
    (∀ (cfg : VehicleTrafficCfg) (d : VehicleDraws),
      cfg.ruleBreakProbability = 0 → 0 < d.gate → applyVehicleBehavior cfg d = []) ∧
    (∀ (cfg : PedestrianTrafficCfg) (egoLoc : Option Location) (d : PedestrianDraws),
      cfg.ruleBreakProbability = 0 → 0 < d.gate →
        applyPedestrianBehavior cfg egoLoc d = []) ∧
    (∀ (cfg : VehicleTrafficCfg) (d : VehicleDraws),
      cfg.ruleBreakProbability = 1 →
      cfg.behaviors.runRedLight = 1 → cfg.behaviors.ignoreStopSign = 1 →
      cfg.behaviors.suddenLaneChange = 1 → cfg.behaviors.ignoreRightOfWay = 1 →
      cfg.behaviors.tailgate = 1 →
      d.gate < 1 → d.redLight < 1 → d.stopSign < 1 → d.laneChange < 1 →
      d.rightOfWay < 1 → d.tailgate < 1 →
        applyVehicleBehavior cfg d =
          [TMAction.ignoreLights 100, TMAction.ignoreSigns 100,
           TMAction.randomLeftLaneChange 50, TMAction.randomRightLaneChange 50,
           TMAction.ignoreVehicles 50, TMAction.distanceToLeading 1,
           TMAction.speedDifference d.speedDiff]) ∧
    (∀ (cfg : PedestrianTrafficCfg) (loc : Location) (d : PedestrianDraws),
      cfg.ruleBreakProbability = 1 →
      cfg.behaviors.jaywalk = 1 → cfg.behaviors.ignoreSignal = 1 →
      cfg.behaviors.suddenCrossing = 1 →
      d.gate < 1 → d.jaywalkTest < 1 → d.signalTest < 1 → d.crossingTest < 1 →
        applyPedestrianBehavior cfg (some loc) d =
          [WalkerAction.setMaxSpeed d.jaywalkSpeed,
           WalkerAction.goToLocation (loc.x + d.offsetX) (loc.y + d.offsetY) loc.z]) := by
  refine ⟨?_, ?_, ?_, ?_⟩
  · intro cfg d h0 hg
    unfold applyVehicleBehavior
    rw [if_pos (by rw [h0]; exact hg)]
  · intro cfg egoLoc d h0 hg
    unfold applyPedestrianBehavior
    rw [if_pos (by rw [h0]; exact hg)]
  · intro cfg d h0 h1 h2 h3 h4 h5 hg hd1 hd2 hd3 hd4 hd5
    unfold applyVehicleBehavior
    rw [if_neg (by rw [h0]; exact not_lt.mpr (le_of_lt hg))]
    rw [if_pos (by rw [h1]; exact hd1), if_pos (by rw [h2]; exact hd2),
        if_pos (by rw [h3]; exact hd3), if_pos (by rw [h4]; exact hd4),
        if_pos (by rw [h5]; exact hd5)]
    rfl
  · intro cfg loc d h0 h1 h2 h3 hg hd1 hd2 hd3
    unfold applyPedestrianBehavior
    rw [if_neg (by rw [h0]; exact not_lt.mpr (le_of_lt hg))]
    rw [if_pos (by rw [h1]; exact hd1), if_pos (by rw [h2]; exact hd2),
        if_pos (by rw [h3]; exact hd3)]
    rfl

/-- Witness for C6 (amended): a concrete vehicle at the all-ones boundary
receives every sub-behavior parameter set, and a concrete rule-abiding
vehicle under probability `0` receives nothing. -/
theorem injector_boundary_probabilities_witness :
    applyVehicleBehavior ⟨0, ⟨0, 0, 0, 0, 0, 0⟩⟩ ⟨1/2, 0, 0, 0, 0, 0, 3⟩ = [] ∧
    applyVehicleBehavior ⟨1, ⟨1, 1, 1, 1, 0, 1⟩⟩ ⟨0, 0, 0, 0, 0, 0, 3⟩ =
      [TMAction.ignoreLights 100, TMAction.ignoreSigns 100,
       TMAction.randomLeftLaneChange 50, TMAction.randomRightLaneChange 50,
       TMAction.ignoreVehicles 50, TMAction.distanceToLeading 1,
       TMAction.speedDifference 3] ∧
    applyPedestrianBehavior ⟨1, ⟨1, 1, 1, 0⟩⟩ (some ⟨10, 20, 1⟩) ⟨0, 0, 2, 0, 0, 4, 5⟩ =
      [WalkerAction.setMaxSpeed 2, WalkerAction.goToLocation 14 25 1] :=
  ⟨injector_boundary_probabilities.1 ⟨0, ⟨0, 0, 0, 0, 0, 0⟩⟩ ⟨1/2, 0, 0, 0, 0, 0, 3⟩
      rfl (by norm_num),
   injector_boundary_probabilities.2.2.1 ⟨1, ⟨1, 1, 1, 1, 0, 1⟩⟩ ⟨0, 0, 0, 0, 0, 0, 3⟩
      rfl rfl rfl rfl rfl rfl (by norm_num) (by norm_num) (by norm_num) (by norm_num)
      (by norm_num) (by norm_num),
   by
     have h := injector_boundary_probabilities.2.2.2 ⟨1, ⟨1, 1, 1, 0⟩⟩ ⟨10, 20, 1⟩
       ⟨0, 0, 2, 0, 0, 4, 5⟩ rfl rfl rfl rfl (by norm_num) (by norm_num) (by norm_num)
       (by norm_num)
     rw [h]
     norm_num⟩

/-- A spawned actor handle: an identifier plus the `is_alive` flag the
cleanup code queries before destroying. -/
structure Actor where
  aid : Nat
  isAlive : Bool
deriving DecidableEq

/-- Calls `cleanup` issues against the simulator. -/
inductive CleanupOp
  | stopCall (aid : Nat)
  | destroy (aid : Nat)
deriving DecidableEq

/-- The actor-owning state of a `ScenarioRunner` (sensors, pedestrian
controllers, pedestrians, NPC vehicles, ego), in acquisition order
ego → vehicles → pedestrians → controllers → sensors. -/
structure Session where
  sensors : List Actor
  pedControllers : List Actor
  pedestrians : List Actor
  vehicles : List Actor
  ego : Option Actor
deriving DecidableEq

/-- `for x in xs: if x.is_alive: x.destroy()` -/
def destroyOps (l : List Actor) : List CleanupOp :=
  (l.filter Actor.isAlive).map (fun a => CleanupOp.destroy a.aid)

/-- `for c in controllers: if c.is_alive: c.stop(); c.destroy()` -/
def stopDestroyOps (l : List Actor) : List CleanupOp :=
  (l.filter Actor.isAlive).foldr
    (fun a ops => CleanupOp.stopCall a.aid :: CleanupOp.destroy a.aid :: ops) []

/-- `if self.ego_vehicle and self.ego_vehicle.is_alive: self.ego_vehicle.destroy()` -/
def egoOps : Option Actor → List CleanupOp
  | some e => if e.isAlive then [CleanupOp.destroy e.aid] else []
  | none => []

/-- `ScenarioRunner.cleanup` (lines 577-611): destroy live sensors, then live
pedestrian controllers (stop before destroy), then live pedestrians, then
live vehicles, then the ego; every list is cleared and the ego handle set to
`None`.  Returns the new state and the sequence of simulator calls. -/
def cleanup (s : Session) : Session × List CleanupOp :=
  (⟨[], [], [], [], none⟩,
   destroyOps s.sensors ++ stopDestroyOps s.pedControllers ++
   destroyOps s.pedestrians ++ destroyOps s.vehicles ++ egoOps s.ego)

/-- Every destroy issued over a plain actor list comes from a live member. -/
theorem mem_destroyOps {l : List Actor} {i : Nat}
    (h : CleanupOp.destroy i ∈ destroyOps l) :
    ∃ a ∈ l, a.isAlive = true ∧ a.aid = i := by
  simp only [destroyOps, List.mem_map, List.mem_filter] at h
  obtain ⟨a, ⟨ha, hal⟩, he⟩ := h
  exact ⟨a, ha, hal, by injection he⟩

/-- Every destroy issued over the controller list comes from a live member. -/
theorem mem_stopDestroyOps {l : List Actor} {i : Nat}
    (h : CleanupOp.destroy i ∈ stopDestroyOps l) :
    ∃ a ∈ l, a.isAlive = true ∧ a.aid = i := by
  induction l with
  | nil => simp [stopDestroyOps] at h
  | cons x xs ih =>
    by_cases hx : x.isAlive
    · simp only [stopDestroyOps, List.filter_cons, hx, if_pos, List.foldr] at h
      rcases List.mem_cons.mp h with h1 | h1
      · exact absurd h1 (by simp)
      · rcases List.mem_cons.mp h1 with h2 | h2
        · exact ⟨x, List.mem_cons_self x xs, hx, by injection h2 with h3; rw [h3]⟩
        · obtain ⟨a, ha, hal, he⟩ := ih (by simpa [stopDestroyOps] using h2)
          exact ⟨a, List.mem_cons_of_mem x ha, hal, he⟩
    · simp only [stopDestroyOps, List.filter_cons, hx] at h
      obtain ⟨a, ha, hal, he⟩ := ih (by simpa [stopDestroyOps] using h)
      exact ⟨a, List.mem_cons_of_mem x ha, hal, he⟩

/-- C7: cleanup is idempotent and ordered.  After one call every actor list
is empty and the ego handle is cleared; a second call issues no simulator
calls at all (so no actor is ever destroyed twice); only live actors are
destroyed, in reverse-acquisition order: sensors, pedestrian controllers,
pedestrians, vehicles, ego. -/
theorem cleanup_idempotent (s : Session) :
    (cleanup s).1 = ⟨[], [], [], [], none⟩ ∧
    (cleanup ((cleanup s).1)).2 = [] ∧
    (cleanup ((cleanup s).1)).1 = ⟨[], [], [], [], none⟩ ∧
    (cleanup s).2 =
      destroyOps s.sensors ++ stopDestroyOps s.pedControllers ++
      destroyOps s.pedestrians ++ destroyOps s.vehicles ++ egoOps s.ego ∧
    (∀ i, CleanupOp.destroy i ∈ (cleanup s).2 →
      ∃ a : Actor, a.aid = i ∧ a.isAlive = true ∧
        (a ∈ s.sensors ∨ a ∈ s.pedControllers ∨ a ∈ s.pedestrians ∨
         a ∈ s.vehicles ∨ s.ego = some a)) := by
  refine ⟨rfl, rfl, rfl, rfl, ?_⟩
  intro i hi
  simp only [cleanup, List.mem_append] at hi
  rcases hi with ((((h | h) | h) | h) | h)
  · obtain ⟨a, ha, hal, he⟩ := mem_destroyOps h
    exact ⟨a, he, hal, Or.inl ha⟩
  · obtain ⟨a, ha, hal, he⟩ := mem_stopDestroyOps h
    exact ⟨a, he, hal, Or.inr (Or.inl ha)⟩
  · obtain ⟨a, ha, hal, he⟩ := mem_destroyOps h
    exact ⟨a, he, hal, Or.inr (Or.inr (Or.inl ha))⟩
  · obtain ⟨a, ha, hal, he⟩ := mem_destroyOps h
    exact ⟨a, he, hal, Or.inr (Or.inr (Or.inr (Or.inl ha)))⟩
  · rcases hs : s.ego with _ | e
    · rw [hs] at h
      simp [egoOps] at h
    · rw [hs] at h
      by_cases he : e.isAlive
      · simp only [egoOps, he, if_pos] at h
        have h1 := List.mem_singleton.mp h
        have h2 : e.aid = i := by injection h1 with h3; rw [h3]
        exact ⟨e, h2, he, Or.inr (Or.inr (Or.inr (Or.inr rfl)))⟩
      · simp [egoOps, he] at h

/-- Witness for C7: a session with one live sensor and a dead vehicle —
actor `5` is destroyed by the first call, the second call issues nothing,
and actor `5` is certified live. -/
theorem cleanup_idempotent_witness :
    (cleanup ⟨[⟨5, true⟩], [], [], [⟨9, false⟩], none⟩).1 = ⟨[], [], [], [], none⟩ ∧
    (cleanup ((cleanup ⟨[⟨5, true⟩], [], [], [⟨9, false⟩], none⟩).1)).2 = [] ∧
    (∃ a : Actor, a.aid = 5 ∧ a.isAlive = true ∧
      (a ∈ ([⟨5, true⟩] : List Actor) ∨ a ∈ ([] : List Actor) ∨ a ∈ ([] : List Actor) ∨
       a ∈ ([⟨9, false⟩] : List Actor) ∨ (none : Option Actor) = some a)) :=
  ⟨(cleanup_idempotent ⟨[⟨5, true⟩], [], [], [⟨9, false⟩], none⟩).1,
   (cleanup_idempotent ⟨[⟨5, true⟩], [], [], [⟨9, false⟩], none⟩).2.1,
   (cleanup_idempotent ⟨[⟨5, true⟩], [], [], [⟨9, false⟩], none⟩).2.2.2.2 5 (by decide)⟩

/-- Forward vector of a transform, from `carla.Transform.get_forward_vector`
(derived from the rotation by the simulator; carried here as data). -/
structure Vector3 where
  x : ℚ
  y : ℚ
  z : ℚ
deriving DecidableEq

/-- `carla.Transform` as used by the locator: a location, a yaw, and the
forward vector the simulator derives from the rotation. -/
structure Transform where
  location : Location
  yaw : ℚ
  forward : Vector3
deriving DecidableEq

/-- `carla.Waypoint` as used by the locator: a transform, junction
membership, and the identifier of the junction it belongs to (if any). -/
structure Waypoint where
  transform : Transform
  isJunction : Bool
  junctionId : Option Nat
deriving DecidableEq

/-- `carla.Junction`: an id and its `get_waypoints(Driving)` pairs of
(entry waypoint, exit waypoint). -/
structure Junction where
  jid : Nat
  drivingPairs : List (Waypoint × Waypoint)

/-- The map queries the locator consumes (`carla.Map` plus the world's
traffic-light lookup): spawn points, `get_waypoint`, `next`/`previous` at a
distance, `generate_waypoints(5.0)`, junction lookup by id, and the count
of traffic lights per junction. -/
structure CarlaMap where
  spawnPoints : List Transform
  waypointAt : Location → Waypoint
  nextWps : Waypoint → ℚ → List Waypoint
  prevWps : Waypoint → ℚ → List Waypoint
  generated : List Waypoint
  junctionOf : Nat → Junction
  trafficLightCount : Nat → Nat

/-- `ScenarioRunner._calculate_destination` (lines 273-295): take the
waypoint at the spawn location, walk the path forward 100 meters and use the
first resulting waypoint; if the path graph has no further nodes, project
100 meters along the spawn's forward vector (keeping the spawn's z). -/
def calculateDestination (m : CarlaMap) (spawn : Transform) : Location :=
  match m.nextWps (m.waypointAt spawn.location) 100 with
  | wp :: _ => wp.transform.location
  | [] =>
    ⟨spawn.location.x + spawn.forward.x * 100,
     spawn.location.y + spawn.forward.y * 100,
     spawn.location.z⟩

/-- The per-waypoint filter of `ScenarioRunner._find_intersections` (lines
202-216): junction waypoints are kept according to the signal/no-signal
location class; the road-segment arm (`not wp.is_junction`) is nested under
the `is_junction` test in the source and therefore never matches. -/
def intersectionKeep (m : CarlaMap) (lt : LocationType) (wp : Waypoint) : Bool :=
  if wp.isJunction then
    match wp.junctionId with
    | none => false
    | some j =>
      let hasSignal := decide (0 < m.trafficLightCount j)
      match lt with
      | .intersectionSignal => hasSignal
      | .intersectionNoSignal => !hasSignal
      | .roadSegment => false
  else false

/-- The deduplication loop of `_find_intersections` (lines 219-226): keep
the first waypoint seen for each junction id (Python dict insertion order). -/
def dedupByJunction : List Waypoint → List Nat → List Waypoint
  | [], _ => []
  | wp :: rest, seen =>
    match wp.junctionId with
    | some j =>
      if j ∈ seen then dedupByJunction rest seen
      else wp :: dedupByJunction rest (j :: seen)
    | none => dedupByJunction rest seen

/-- `ScenarioRunner._find_intersections` (lines 195-226). -/
def findIntersections (m : CarlaMap) (lt : LocationType) : List Waypoint :=
  dedupByJunction (m.generated.filter (intersectionKeep m lt)) []

/-- The pair loop of `ScenarioRunner._find_maneuver_spawn_at_intersection`
(lines 242-269): for the first (entry, exit) pair whose normalized turn
angle matches the maneuver, step back 40 meters from the entry for the
spawn (lifting z by 0.5) and forward 30 meters from the exit for the
destination; pairs whose backward or forward step yields nothing are
skipped and the loop continues. -/
def findPairSpawn (m : CarlaMap) (mt : ManeuverType) :
    List (Waypoint × Waypoint) → Option (Transform × Location)
  | [] => none
  | (entryWp, exitWp) :: rest =>
    let angle := normAngle (exitWp.transform.yaw - entryWp.transform.yaw)
    if matchesManeuver mt angle then
      match m.prevWps entryWp 40 with
      | spawnWp :: _ =>
        let st := spawnWp.transform
        let lifted : Transform :=
          ⟨⟨st.location.x, st.location.y, st.location.z + 1/2⟩, st.yaw, st.forward⟩
        match m.nextWps exitWp 30 with
        | d :: _ => some (lifted, d.transform.location)
        | [] => findPairSpawn m mt rest
      | [] => findPairSpawn m mt rest
    else findPairSpawn m mt rest

/-- `ScenarioRunner._find_maneuver_spawn_at_intersection` (lines 228-271). -/
def findManeuverSpawnAtIntersection (m : CarlaMap) (mt : ManeuverType)
    (wp : Waypoint) : Option (Transform × Location) :=
  match wp.junctionId with
  | none => none
  | some j => findPairSpawn m mt (m.junctionOf j).drivingPairs

/-- The intersection loop of `find_maneuver_location` (lines 182-187):
return the first intersection that yields a spawn. -/
def firstIntersectionSpawn (m : CarlaMap) (mt : ManeuverType) :
    List Waypoint → Option (Transform × Location)
  | [] => none
  | wp :: rest =>
    match findManeuverSpawnAtIntersection m mt wp with
    | some r => some r
    | none => firstIntersectionSpawn m mt rest

/-- `ScenarioRunner.find_maneuver_location` (lines 151-193).  The two
`random.choice(spawn_points)` fallback draws are modelled by the explicit
parameters `choiceNoIntersections` (used when no intersection matches the
location class) and `choiceNoMatch` (used when no intersection yields a
maneuver spawn). -/
def findManeuverLocation (m : CarlaMap) (mt : ManeuverType) (lt : LocationType)
    (spawnPointIndex : Int) (choiceNoIntersections choiceNoMatch : Transform) :
    Transform × Location :=
  let indexed : Option (Transform × Location) :=
    if 0 ≤ spawnPointIndex then
      match m.spawnPoints.get? spawnPointIndex.toNat with
      | some sp => some (sp, calculateDestination m sp)
      | none => none
    else none
  match indexed with
  | some r => r
  | none =>
    match findIntersections m lt with
    | [] => (choiceNoIntersections, calculateDestination m choiceNoIntersections)
    | wps =>
      match firstIntersectionSpawn m mt wps with
      | some r => r
      | none => (choiceNoMatch, calculateDestination m choiceNoMatch)

/-- A concrete spawn transform for the C9 counterexample. -/
def spawnA : Transform := ⟨⟨0, 0, 0⟩, 0, ⟨1, 0, 0⟩⟩

/-- A concrete one-spawn-point map with an empty waypoint graph, for the C9
counterexample. -/
def oneSpawnMap : CarlaMap :=
  { spawnPoints := [spawnA]
    waypointAt := fun _ => ⟨spawnA, false, none⟩
    nextWps := fun _ _ => []
    prevWps := fun _ _ => []
    generated := []
    junctionOf := fun j => ⟨j, []⟩
    trafficLightCount := fun _ => 0 }

/-- Counterexample for C9: with `spawn_point_index = 1 ≥ 0` but only one
spawn point on the map, the requested index names no spawn point, so
`find_maneuver_location` cannot (and does not) use it — the source guard
`idx < len(spawn_points)` fails and the search falls through. -/
theorem indexed_spawn_out_of_range :
    (0 : Int) ≤ 1 ∧
    ¬ ∃ sp, oneSpawnMap.spawnPoints.get? (1 : Int).toNat = some sp ∧
      findManeuverLocation oneSpawnMap .straight .intersectionSignal 1 spawnA spawnA =
        (sp, calculateDestination oneSpawnMap sp) := by
  refine ⟨by norm_num, ?_⟩
  rintro ⟨sp, h, _⟩
  simp [oneSpawnMap] at h

/-- C9 (amended): for every configuration whose spawn point index is
non-negative and in range, `find_maneuver_location` returns the indexed
spawn point unchanged together with `_calculate_destination` of it, and
`_calculate_destination` projects 100 meters forward along the waypoint
path when the path graph has further nodes and along the spawn's forward
heading vector otherwise. -/
theorem indexed_spawn_used_directly (m : CarlaMap) (mt : ManeuverType)
    (lt : LocationType) (idx : Int) (c1 c2 : Transform)
    (h0 : 0 ≤ idx) (hlen : idx.toNat < m.spawnPoints.length) :
    findManeuverLocation m mt lt idx c1 c2 =
      (m.spawnPoints.get ⟨idx.toNat, hlen⟩,
       calculateDestination m (m.spawnPoints.get ⟨idx.toNat, hlen⟩)) ∧
    (∀ (sp : Transform) (wp : Waypoint) (l : List Waypoint),
      m.nextWps (m.waypointAt sp.location) 100 = wp :: l →
        calculateDestination m sp = wp.transform.location) ∧
    (∀ sp : Transform,
      m.nextWps (m.waypointAt sp.location) 100 = [] →
        calculateDestination m sp =
          ⟨sp.location.x + sp.forward.x * 100,
           sp.location.y + sp.forward.y * 100, sp.location.z⟩) := by
  refine ⟨?_, ?_, ?_⟩
  · unfold findManeuverLocation
    rw [if_pos h0, List.get?_eq_get hlen]
  · intro sp wp l h
    unfold calculateDestination
    rw [h]
  · intro sp h
    unfold calculateDestination
    rw [h]

/-- Witness for C9 (amended): on the concrete one-spawn-point map, index 0
is in range and is returned unchanged, and the empty path graph forces the
forward-vector fallback destination. -/
theorem indexed_spawn_used_directly_witness :
    findManeuverLocation oneSpawnMap .straight .intersectionSignal 0 spawnA spawnA =
      (spawnA, ⟨100, 0, 0⟩) :=
  by
    have h := (indexed_spawn_used_directly oneSpawnMap .straight .intersectionSignal 0
      spawnA spawnA (by norm_num) (by simp [oneSpawnMap])).1
    rw [h]
    have hd : calculateDestination oneSpawnMap spawnA = ⟨100, 0, 0⟩ := by
      unfold calculateDestination oneSpawnMap spawnA
      norm_num
    simp only [oneSpawnMap, List.get, spawnA] at *
    rw [hd]

end Runner

namespace Evaluator

/-!
Shallow embedding of `scenario_config/tcp_evaluator.py`.  Sample-level
helpers (stuck detection, mean, variance, comfort) are stated over an
arbitrary linear ordered field so that the theorems cover both the
real-valued evaluator model and decidable rational instances.
-/

/-- The stuck-detection block of `TCPEvaluator.update_metrics` (lines
277-284), as a transition on the pair (stuck timer, stuck flag): a tick
below the speed threshold starts the timer if unset and fires the flag once
the timer has run for more than `timeout`; a tick at or above the threshold
resets the timer to unset. -/
def stuckStep {α : Type} [LinearOrderedField α] (threshold timeout : α)
    (st : Option α × Bool) (time speed : α) : Option α × Bool :=
  if speed < threshold then
    match st.1 with
    | none => (some time, st.2)
    | some t0 => if time - t0 > timeout then (some t0, true) else st
  else (none, st.2)

/-- The stuck state after a sequence of (time, speed) metric updates,
starting from the evaluator's initial state (no timer, flag down). -/
def runStuck {α : Type} [LinearOrderedField α] (threshold timeout : α)
    (samples : List (α × α)) : Option α × Bool :=
  samples.foldl (fun st p => stuckStep threshold timeout st p.1 p.2) (none, false)

/-- `np.mean` over a sample list. -/
def listMean {α : Type} [LinearOrderedField α] (l : List α) : α :=
  l.sum / (l.length : α)

/-- `np.var` over a sample list: mean squared deviation from the mean. -/
def listVariance {α : Type} [LinearOrderedField α] (l : List α) : α :=
  (l.map (fun x => (x - listMean l) ^ 2)).sum / (l.length : α)

/-- The comfort-score assignment of `TCPEvaluator.finalize_metrics` (lines
312-315): when the acceleration history is nonempty the score becomes
`max(0, 100 - variance * 10)`; otherwise the current (initial) value is
kept. -/
def comfortScore {α : Type} [LinearOrderedField α] (history : List α)
    (current : α) : α :=
  match history with
  | [] => current
  | _ :: _ => max 0 (100 - listVariance history * 10)

/-- Auxiliary: within one below-threshold run whose ticks all lie within
`timeout` of the timer start, the stuck state is unchanged. -/
theorem foldl_stuck_within {α : Type} [LinearOrderedField α]
    (threshold timeout t0 : α) (b : Bool) (l : List (α × α))
    (h : ∀ p ∈ l, p.2 < threshold ∧ p.1 - t0 ≤ timeout) :
    l.foldl (fun st p => stuckStep threshold timeout st p.1 p.2) (some t0, b) =
      (some t0, b) := by
  induction l with
  | nil => rfl
  | cons p rest ih =>
    have hp := h p (List.mem_cons_self p rest)
    have hstep : stuckStep threshold timeout (some t0, b) p.1 p.2 = (some t0, b) := by
      unfold stuckStep
      rw [if_pos hp.1]
      exact if_neg (not_lt.mpr hp.2)
    rw [List.foldl_cons, hstep]
    exact ih (fun q hq => h q (List.mem_cons_of_mem p hq))

/-- Auxiliary: a below-threshold run entered with the timer unset leaves
the timer at the run's first tick time and the flag unchanged, provided
every tick of the run lies within `timeout` of that first tick. -/
theorem foldl_stuck_lowrun {α : Type} [LinearOrderedField α]
    (threshold timeout t1 v1 : α) (b : Bool) (r : List (α × α))
    (hv : v1 < threshold) (h : ∀ p ∈ r, p.2 < threshold ∧ p.1 - t1 ≤ timeout) :
    ((t1, v1) :: r).foldl (fun st p => stuckStep threshold timeout st p.1 p.2)
        ((none : Option α), b) = (some t1, b) := by
  have hstep : stuckStep threshold timeout (none, b) t1 v1 = (some t1, b) := by
    unfold stuckStep
    rw [if_pos hv]
  rw [List.foldl_cons, hstep]
  exact foldl_stuck_within threshold timeout t1 b r h

/-- C2: stuck detection requires sustained low speed.  The timer starts on
the first below-threshold update; any at-or-above-threshold update resets
it; the flag can rise on an update only when the update is below threshold
and the running timer has exceeded `stuck_timeout`; and an execution made
of two below-threshold intervals separated by a recovery tick, neither
interval alone exceeding `stuck_timeout`, never sets the flag regardless of
their combined duration. -/
theorem stuck_requires_sustained_low_speed {α : Type} [LinearOrderedField α]
    (threshold timeout : α) :
    (∀ (b : Bool) (t v : α), v < threshold →
      stuckStep threshold timeout (none, b) t v = (some t, b)) ∧
    (∀ (st : Option α × Bool) (t v : α), threshold ≤ v →
      stuckStep threshold timeout st t v = (none, st.2)) ∧
    (∀ (st : Option α × Bool) (t v : α), st.2 = false →
      (stuckStep threshold timeout st t v).2 = true →
      v < threshold ∧ ∃ t0, st.1 = some t0 ∧ timeout < t - t0) ∧
    (∀ (t1 v1 tr vr t2 v2 : α) (r1 r2 : List (α × α)),
      v1 < threshold → (∀ p ∈ r1, p.2 < threshold ∧ p.1 - t1 ≤ timeout) →
      threshold ≤ vr →
      v2 < threshold → (∀ p ∈ r2, p.2 < threshold ∧ p.1 - t2 ≤ timeout) →
      (runStuck threshold timeout
        (((t1, v1) :: r1) ++ (tr, vr) :: (t2, v2) :: r2)).2 = false) := by
  refine ⟨?_, ?_, ?_, ?_⟩
  · intro b t v hv
    unfold stuckStep
    rw [if_pos hv]
  · intro st t v hv
    unfold stuckStep
    rw [if_neg (not_lt.mpr hv)]
  · intro st t v hflag hfire
    unfold stuckStep at hfire
    by_cases hv : v < threshold
    · rw [if_pos hv] at hfire
      refine ⟨hv, ?_⟩
      match hst : st.1 with
      | none =>
        rw [hst] at hfire
        simp at hfire
        exact absurd hfire.symm (by rw [hflag]; simp)
      | some t0 =>
        rw [hst] at hfire
        have hfire2 : (if t - t0 > timeout then ((some t0, true) : Option α × Bool)
            else st).2 = true := hfire
        by_cases ht : t - t0 > timeout
        · exact ⟨t0, rfl, ht⟩
        · rw [if_neg ht] at hfire2
          exact absurd hfire2 (by rw [hflag]; simp)
    · rw [if_neg hv] at hfire
      simp at hfire
      exact absurd hfire.symm (by rw [hflag]; simp)
  · intro t1 v1 tr vr t2 v2 r1 r2 hv1 hr1 hvr hv2 hr2
    unfold runStuck
    rw [List.foldl_append]
    rw [foldl_stuck_lowrun threshold timeout t1 v1 false r1 hv1 hr1]
    rw [List.foldl_cons]
    have hreset : stuckStep threshold timeout (some t1, false) tr vr = (none, false) := by
      unfold stuckStep
      rw [if_neg (not_lt.mpr hvr)]
    rw [hreset]
    rw [foldl_stuck_lowrun threshold timeout t2 v2 false r2 hv2 hr2]

/-- Witness for C2: threshold 1, timeout 8; two low-speed intervals of
duration 5 each (combined 10 > 8) separated by a recovery tick never set
the flag. -/
theorem stuck_requires_sustained_low_speed_witness :
    (runStuck (1 : ℚ) 8 [(0, 0), (5, 0), (6, 2), (7, 0), (12, 0)]).2 = false :=
  (stuck_requires_sustained_low_speed (1 : ℚ) 8).2.2.2 0 0 6 2 7 0
    [(5, 0)] [(12, 0)]
    (by norm_num)
    (by
      rintro p hp
      rcases List.mem_singleton.mp hp with rfl
      exact ⟨by norm_num, by norm_num⟩)
    (by norm_num)
    (by norm_num)
    (by
      rintro p hp
      rcases List.mem_singleton.mp hp with rfl
      exact ⟨by norm_num, by norm_num⟩)

/-- C3: for every nonempty acceleration-sample list the finalized comfort
score equals `max(0, 100 - 10 * variance)`; starting from the initial score
0 the finalized score is never negative (including the empty-history case,
where the initial 0 is kept); and the score is monotonically non-increasing
in the sample variance. -/
theorem comfort_score_spec {α : Type} [LinearOrderedField α] :
    (∀ (x : α) (l : List α),
      comfortScore (x :: l) 0 = max 0 (100 - 10 * listVariance (x :: l))) ∧
    (∀ l : List α, 0 ≤ comfortScore l 0) ∧
    (∀ (x1 x2 : α) (l1 l2 : List α),
      listVariance (x1 :: l1) ≤ listVariance (x2 :: l2) →
      comfortScore (x2 :: l2) 0 ≤ comfortScore (x1 :: l1) 0) := by
  refine ⟨?_, ?_, ?_⟩
  · intro x l
    show max 0 (100 - listVariance (x :: l) * 10) = _
    rw [mul_comm]
  · intro l
    match l with
    | [] => exact le_refl 0
    | _ :: _ => exact le_max_left 0 _
  · intro x1 x2 l1 l2 h
    show max 0 (100 - listVariance (x2 :: l2) * 10) ≤
      max 0 (100 - listVariance (x1 :: l1) * 10)
    exact max_le_max (le_refl 0) (by nlinarith)

/-- Witness for C3: concrete rational sample lists — constant samples score
100, and the higher-variance list `[0, 2]` scores no more than `[0, 0]`. -/
theorem comfort_score_spec_witness :
    comfortScore ([0, 0] : List ℚ) 0 = 100 ∧
    comfortScore ([0, 2] : List ℚ) 0 ≤ comfortScore ([0, 0] : List ℚ) 0 := by
  constructor
  · have h := comfort_score_spec.1 (0 : ℚ) [0]
    rw [h]
    norm_num [listVariance, listMean]
  · exact comfort_score_spec.2.2 0 0 [0] [2]
      (by norm_num [listVariance, listMean])

/-- The ways `TCPEvaluator.run_evaluation` can terminate. -/
inductive ExitPath
  | setupFailed
  | noEgo
  | timeoutReached
  | stuckDetected
  | completedRun
  | interrupted
  | internalError
deriving DecidableEq

/-- The two lifecycle calls whose ordering C5 is about. -/
inductive RunEvent
  | finalizeCall
  | cleanupCall
deriving DecidableEq

/-- The finalize/cleanup calls `run_evaluation` (lines 324-437) makes on
each exit path: the three loop exits (timeout, stuck, completion) and the
`KeyboardInterrupt` handler call `finalize_metrics` and then reach the
`finally` cleanup; the early returns (setup failure, missing ego) and the
generic `except Exception` handler return the metrics without finalizing,
with cleanup still running in `finally`. -/
def runEvaluationEvents : ExitPath → List RunEvent
  | .setupFailed => [.cleanupCall]
  | .noEgo => [.cleanupCall]
  | .timeoutReached => [.finalizeCall, .cleanupCall]
  | .stuckDetected => [.finalizeCall, .cleanupCall]
  | .completedRun => [.finalizeCall, .cleanupCall]
  | .interrupted => [.finalizeCall, .cleanupCall]
  | .internalError => [.cleanupCall]

/-- Counterexample for C5: on the internal-exception exit path
`run_evaluation` performs no `finalize_metrics` call at all (the generic
exception handler returns the metrics directly), so finalization is not
called exactly once on every exit path. -/
theorem finalize_skipped_on_internal_error :
    runEvaluationEvents .internalError = [RunEvent.cleanupCall] ∧
    RunEvent.finalizeCall ∉ runEvaluationEvents .internalError := by
  refine ⟨rfl, ?_⟩
  intro h
  simp [runEvaluationEvents] at h

/-- C5 (amended): `finalize_metrics` is called exactly once, before cleanup,
on the timeout, stuck, completion and external-interrupt exit paths of
`run_evaluation`; the internal-exception path (like the setup-failure
paths) skips finalization, with cleanup still guaranteed by the `finally`
block. -/
theorem finalize_on_main_exit_paths (p : ExitPath)
    (h : p = .timeoutReached ∨ p = .stuckDetected ∨ p = .completedRun ∨
         p = .interrupted) :
    runEvaluationEvents p = [RunEvent.finalizeCall, RunEvent.cleanupCall] := by
  rcases h with rfl | rfl | rfl | rfl <;> rfl

/-- Witness for C5 (amended): the timeout exit path finalizes once and then
cleans up. -/
theorem finalize_on_main_exit_paths_witness :
    runEvaluationEvents .timeoutReached =
      [RunEvent.finalizeCall, RunEvent.cleanupCall] :=
  finalize_on_main_exit_paths .timeoutReached (Or.inl rfl)

/-- `carla.Vector3D` in the evaluator, over the reals. -/
structure Vec3 where
  x : ℝ
  y : ℝ
  z : ℝ

/-- `carla.Location` in the evaluator, over the reals. -/
structure Location where
  x : ℝ
  y : ℝ
  z : ℝ

/-- `np.sqrt(v.x**2 + v.y**2 + v.z**2)`: the speed computed by
`update_metrics`. -/
noncomputable def norm3 (v : Vec3) : ℝ :=
  Real.sqrt (v.x ^ 2 + v.y ^ 2 + v.z ^ 2)

/-- `carla.Location.distance`: Euclidean distance. -/
noncomputable def locDistance (a b : Location) : ℝ :=
  Real.sqrt ((a.x - b.x) ^ 2 + (a.y - b.y) ^ 2 + (a.z - b.z) ^ 2)

/-- The fields of `EvaluationMetrics` (tcp_evaluator.py lines 39-77)
touched by the evaluation loop; `min_speed` is `float('inf')` initially,
modelled as `⊤ : WithTop ℝ`. -/
structure Metrics where
  completed : Bool
  completionTime : ℝ
  timeoutReached : Bool
  stuck : Bool
  distanceTraveled : ℝ
  distanceToDestination : ℝ
  averageSpeed : ℝ
  maxSpeed : ℝ
  minSpeed : WithTop ℝ
  numCollisions : Nat
  redLightsRun : Nat
  laneInvasions : Nat
  maxAcceleration : ℝ
  maxDeceleration : ℝ
  comfortScore : ℝ

/-- The dataclass defaults of `EvaluationMetrics`. -/
def initMetrics : Metrics :=
  ⟨false, 0, false, false, 0, 0, 0, 0, ⊤, 0, 0, 0, 0, 0, 0⟩

/-- The evaluator state threaded through the loop: the metrics plus the
speed/acceleration histories, last-sample memory and the stuck timer. -/
structure EvalState where
  metrics : Metrics
  speedHistory : List ℝ
  accelHistory : List ℝ
  lastLocation : Option Location
  lastVelocity : Option Vec3
  lastTime : ℝ
  stuckStart : Option ℝ

/-- The evaluator state at loop entry: `run_evaluation` (line 346) seeds
`last_location` with the ego's start location before the first iteration;
everything else is at its constructor default. -/
def initState (startLoc : Location) : EvalState :=
  ⟨initMetrics, [], [], some startLoc, none, 0, none⟩

/-- The evaluation thresholds read from `config.evaluation`. -/
structure EvalCfg where
  timeout : ℝ
  stuckSpeedThreshold : ℝ
  stuckTimeout : ℝ

/-- One loop iteration's observation of the world: the elapsed time
(`run_evaluation` passes `elapsed` as `current_time`), the ego location,
velocity, and the transform's forward vector. -/
structure Tick where
  elapsed : ℝ
  location : Location
  velocity : Vec3
  forward : Vec3

/-- `TCPEvaluator.update_metrics` (lines 240-289): append speed, update
speed extrema, accumulate travelled distance from the last location,
finite-difference acceleration when a previous velocity and a positive
`last_time` and time step exist, distance to destination, the stuck block
(`stuckStep`), and the last-sample memory. -/
noncomputable def updateMetrics (cfg : EvalCfg) (dest : Option Location)
    (st : EvalState) (tk : Tick) : EvalState :=
  let speed := norm3 tk.velocity
  let accelData : Option (ℝ × ℝ) :=
    match st.lastVelocity with
    | some lv =>
      if st.lastTime > 0 then
        let dt := tk.elapsed - st.lastTime
        if dt > 0 then
          let ax := (tk.velocity.x - lv.x) / dt
          let ay := (tk.velocity.y - lv.y) / dt
          some (Real.sqrt (ax ^ 2 + ay ^ 2),
                ax * tk.forward.x + ay * tk.forward.y)
        else none
      else none
    | none => none
  let stuckState :=
    stuckStep cfg.stuckSpeedThreshold cfg.stuckTimeout
      (st.stuckStart, st.metrics.stuck) tk.elapsed speed
  { metrics :=
      { st.metrics with
        maxSpeed := max st.metrics.maxSpeed speed
        minSpeed := min st.metrics.minSpeed (speed : WithTop ℝ)
        distanceTraveled :=
          match st.lastLocation with
          | some l => st.metrics.distanceTraveled + locDistance tk.location l
          | none => st.metrics.distanceTraveled
        maxAcceleration :=
          match accelData with
          | some (_, la) =>
            if la > 0 then max st.metrics.maxAcceleration la
            else st.metrics.maxAcceleration
          | none => st.metrics.maxAcceleration
        maxDeceleration :=
          match accelData with
          | some (_, la) =>
            if la > 0 then st.metrics.maxDeceleration
            else max st.metrics.maxDeceleration |la|
          | none => st.metrics.maxDeceleration
        distanceToDestination :=
          match dest with
          | some d => locDistance tk.location d
          | none => st.metrics.distanceToDestination
        stuck := stuckState.2 }
    speedHistory := st.speedHistory ++ [speed]
    accelHistory :=
      match accelData with
      | some (a, _) => st.accelHistory ++ [a]
      | none => st.accelHistory
    lastLocation := some tk.location
    lastVelocity := some tk.velocity
    lastTime := tk.elapsed
    stuckStart := stuckState.1 }

/-- `TCPEvaluator.finalize_metrics` (lines 303-322): set the completion
time, fill the average speed only when the speed history is nonempty, fill
the comfort score only when the acceleration history is nonempty, and copy
the runner's event counters. -/
noncomputable def finalizeMetrics (st : EvalState) (elapsed : ℝ)
    (collisionCount laneInvasionCount redLightCount : Nat) : Metrics :=
  { st.metrics with
    completionTime := elapsed
    averageSpeed :=
      match st.speedHistory with
      | [] => st.metrics.averageSpeed
      | _ :: _ => listMean st.speedHistory
    comfortScore := comfortScore st.accelHistory st.metrics.comfortScore
    numCollisions := collisionCount
    laneInvasions := laneInvasionCount
    redLightsRun := redLightCount }

/-- The main loop of `TCPEvaluator.run_evaluation` (lines 352-415) over a
trace of per-tick observations, with the source's check order: timeout,
stuck flag, completion (ego within 5 units of the destination), then the
metrics update.  The model-control and world-tick statements mutate only
the external world and are not part of the evaluator state. -/
noncomputable def evalLoop (cfg : EvalCfg) (dest : Location) :
    EvalState → List Tick → EvalState
  | st, [] => st
  | st, tk :: rest =>
    if tk.elapsed > cfg.timeout then
      { st with metrics := { st.metrics with timeoutReached := true } }
    else if st.metrics.stuck then st
    else if locDistance tk.location dest < 5 then
      { st with metrics := { st.metrics with completed := true } }
    else evalLoop cfg dest (updateMetrics cfg (some dest) st tk) rest

/-- The metrics returned by a run that enters the loop: run the loop from
the seeded initial state, then finalize once with the final elapsed time
and the runner's event counts. -/
noncomputable def runEvaluationMetrics (cfg : EvalCfg) (dest startLoc : Location)
    (ticks : List Tick) (finalElapsed : ℝ)
    (collisionCount laneInvasionCount redLightCount : Nat) : Metrics :=
  finalizeMetrics (evalLoop cfg dest (initState startLoc) ticks) finalElapsed
    collisionCount laneInvasionCount redLightCount

/-- C10: when the first loop iteration already finds the ego within 5 units
of the destination (and the timeout has not elapsed), the loop exits as
completed before any `update_metrics` call, and the finalized report keeps
`min_speed = ⊤` (the `float('inf')` initial), `average_speed = 0` and
`distance_traveled = 0`: finalization never rewrites them when the speed
history is empty. -/
theorem early_completion_keeps_initial_metrics (cfg : EvalCfg)
    (dest startLoc : Location) (tk : Tick) (rest : List Tick)
    (finalElapsed : ℝ) (c li rl : Nat)
    (htime : ¬ tk.elapsed > cfg.timeout)
    (hdist : locDistance tk.location dest < 5) :
    (runEvaluationMetrics cfg dest startLoc (tk :: rest) finalElapsed
        c li rl).minSpeed = ⊤ ∧
    (runEvaluationMetrics cfg dest startLoc (tk :: rest) finalElapsed
        c li rl).averageSpeed = 0 ∧
    (runEvaluationMetrics cfg dest startLoc (tk :: rest) finalElapsed
        c li rl).distanceTraveled = 0 ∧
    (runEvaluationMetrics cfg dest startLoc (tk :: rest) finalElapsed
        c li rl).completed = true := by
  have hloop : evalLoop cfg dest (initState startLoc) (tk :: rest) =
      { initState startLoc with
        metrics := { (initState startLoc).metrics with completed := true } } := by
    unfold evalLoop
    rw [if_neg htime]
    rw [if_neg (by simp [initState, initMetrics])]
    rw [if_pos hdist]
  unfold runEvaluationMetrics
  rw [hloop]
  refine ⟨rfl, rfl, rfl, rfl⟩

/-- Witness for C10: a run whose ego starts exactly at the destination with
timeout 120 completes on the first iteration and reports the untouched
initial extrema. -/
theorem early_completion_keeps_initial_metrics_witness :
    (runEvaluationMetrics ⟨120, 1/2, 30⟩ ⟨0, 0, 0⟩ ⟨0, 0, 0⟩
        [⟨0, ⟨0, 0, 0⟩, ⟨0, 0, 0⟩, ⟨1, 0, 0⟩⟩] 7 0 0 0).minSpeed = ⊤ ∧
    (runEvaluationMetrics ⟨120, 1/2, 30⟩ ⟨0, 0, 0⟩ ⟨0, 0, 0⟩
        [⟨0, ⟨0, 0, 0⟩, ⟨0, 0, 0⟩, ⟨1, 0, 0⟩⟩] 7 0 0 0).averageSpeed = 0 ∧
    (runEvaluationMetrics ⟨120, 1/2, 30⟩ ⟨0, 0, 0⟩ ⟨0, 0, 0⟩
        [⟨0, ⟨0, 0, 0⟩, ⟨0, 0, 0⟩, ⟨1, 0, 0⟩⟩] 7 0 0 0).distanceTraveled = 0 ∧
    (runEvaluationMetrics ⟨120, 1/2, 30⟩ ⟨0, 0, 0⟩ ⟨0, 0, 0⟩
        [⟨0, ⟨0, 0, 0⟩, ⟨0, 0, 0⟩, ⟨1, 0, 0⟩⟩] 7 0 0 0).completed = true := by
  have hdist : locDistance ⟨0, 0, 0⟩ ⟨0, 0, 0⟩ < 5 := by
    unfold locDistance
    norm_num [Real.sqrt_zero]
  exact early_completion_keeps_initial_metrics ⟨120, 1/2, 30⟩ ⟨0, 0, 0⟩ ⟨0, 0, 0⟩
    ⟨0, ⟨0, 0, 0⟩, ⟨0, 0, 0⟩, ⟨1, 0, 0⟩⟩ [] 7 0 0 0 (by norm_num) hdist

end Evaluator
